import Mathlib

/-!
Verification development for the autobound-ai campaign send pipeline
(src/server.ts).  The data model and operations below are a shallow
embedding of the TypeScript source: SQLite tables become lists of records,
prepared-statement updates become list maps, and the external effects of a
send run (the LLM content generator and the email providers) are supplied
as explicit per-lead outcome functions.  Timestamps are modelled as
booleans (set / not set); auto-increment ids and `updated_at` columns,
which no verified property depends on, are not modelled.
-/

namespace AutoBound

/-- Lead.status values (leads table). -/
inductive LeadStatus
  | new | enriched | emailed | replied | interested | booked | lost
deriving DecidableEq, Repr

/-- campaign_leads.status values. -/
inductive CLStatus
  | pending | sent | opened | replied | failed
deriving DecidableEq, Repr

/-- campaigns.status values. -/
inductive CampStatus
  | draft | active | paused | completed
deriving DecidableEq, Repr

/-- campaigns.send_mode values. -/
inductive SendMode
  | bulk | drip
deriving DecidableEq, Repr

/-- The part of the lead `metadata` JSON blob read by the campaign
handlers: `meta.pain_points` and `meta.services` (absent fields behave as
the empty list, matching `meta.pain_points || []`). -/
structure Meta where
  services : List String
  pain_points : List String
deriving DecidableEq, Repr

/-- A row of the `leads` table.  Nullable text columns are `Option String`;
`rating` is a nullable number. -/
structure Lead where
  id : Nat
  business_name : String
  website : Option String
  industry : Option String
  location : Option String
  rating : Option Rat
  email : Option String
  phone : Option String
  status : LeadStatus
  lead_score : Int
  metadata : Meta
deriving DecidableEq, Repr

/-- The enrichment facts object parsed from the LLM response and passed to
`calculateLeadScore` (fields the function reads; an absent array behaves
as `[]` via `?.length || 0`). -/
structure EnrichmentData where
  contact_email : Option String
  contact_phone : Option String
  pain_points : List String
  services : List String
deriving DecidableEq, Repr

/-- JavaScript truthiness of a nullable string: `null`/`undefined` and the
empty string are falsy. -/
def truthy : Option String → Bool
  | none => false
  | some s => !(s == "")

/-- JavaScript `x >= q` where `x` is a nullable number: a comparison
against `null` (coerced to 0) or `undefined` (NaN) is false for the
thresholds 3 and 4 used below, so an absent rating scores no points. -/
def ratingGE (r : Option Rat) (q : Rat) : Bool :=
  match r with
  | some x => decide (x ≥ q)
  | none => false

/-- The function calculateLeadScore (src/server.ts lines 149-161), statement for
statement: +25 email, +10 phone, +10 website, rating tiers, pain points
capped at 25, services capped at 15, result clamped by `Math.min(_, 100)`. -/
def calculateLeadScore (lead : Lead) (enrichmentData : EnrichmentData) : Int :=
  let score : Int := 0
  let score := if truthy lead.email || truthy enrichmentData.contact_email then score + 25 else score
  let score := if truthy lead.phone || truthy enrichmentData.contact_phone then score + 10 else score
  let score := if truthy lead.website then score + 10 else score
  let score := if ratingGE lead.rating 4 then score + 15
               else if ratingGE lead.rating 3 then score + 5 else score
  let painPoints : Int := enrichmentData.pain_points.length
  let score := score + min (painPoints * 10) 25
  let services : Int := enrichmentData.services.length
  let score := score + min (services * 5) 15
  min score 100

/-- The scoring rubric exactly as the specification words it: a single sum
of the six rubric lines, clamped at 100.  Used to compare the code's
sequential accumulation against the spec's additive formula. -/
def claimLeadScore (lead : Lead) (e : EnrichmentData) : Int :=
  min ((if truthy lead.email || truthy e.contact_email then 25 else 0)
      + (if truthy lead.phone || truthy e.contact_phone then 10 else 0)
      + (if truthy lead.website then 10 else 0)
      + (if ratingGE lead.rating 4 then 15 else if ratingGE lead.rating 3 then 5 else 0)
      + min (10 * (e.pain_points.length : Int)) 25
      + min (5 * (e.services.length : Int)) 15) 100

/-- C7: `calculateLeadScore` is deterministic (it is a pure function of its
two arguments), agrees with the spec's additive rubric clamped at 100, and
always returns an integer in [0, 100]. -/
theorem calculateLeadScore_rubric_and_bounds (lead : Lead) (e : EnrichmentData) :
    calculateLeadScore lead e = claimLeadScore lead e
    ∧ 0 ≤ calculateLeadScore lead e ∧ calculateLeadScore lead e ≤ 100 := by
  have hp : (0 : Int) ≤ (e.pain_points.length : Int) := Int.natCast_nonneg _
  have hs : (0 : Int) ≤ (e.services.length : Int) := Int.natCast_nonneg _
  simp only [calculateLeadScore, claimLeadScore]
  split_ifs <;> refine ⟨by omega, by omega, by omega⟩

/-! ### extractJSON (src/server.ts lines 100-116)

The function is embedded at the character-list level.  JavaScript regex
semantics are reproduced literally; in particular `/\b/` outside a
character class is a *word-boundary assertion* (not a backspace escape),
so `.replace(/\b/g, '\\b')` inserts the two characters `\` `b` at every
word boundary of the string.  Unicode whitespace beyond the ASCII escapes
is not modelled (no claim input contains it). -/

/-- JavaScript `\w`: ASCII letters, digits and underscore. -/
def jsWordChar (c : Char) : Bool :=
  c.isAlphanum || c == '_'

/-- JavaScript `\s` on the ASCII range (space, tab, LF, VT, FF, CR). -/
def jsWhitespace (c : Char) : Bool :=
  c == ' ' || c == '\t' || c == '\n' || c == '\r' || c == '\x0c' || c == '\x0b'

/-- Case-insensitive optional `json` after a code fence:
the `(?:json)?` part of `/spadesbacktickfence(?:json)?\s*/gi`. -/
def dropJsonWord (l : List Char) : List Char :=
  match l with
  | a :: b :: c :: d :: rest =>
      if a.toLower == 'j' && b.toLower == 's' && c.toLower == 'o' && d.toLower == 'n'
      then rest else l
  | _ => l

/-- One global pass of the fence-stripping regex replace on line 102 of
the source: each occurrence of three backticks, an optional
case-insensitive `json`, and trailing whitespace is deleted; scanning
resumes after the match, as with a JavaScript global replace.  `fuel`
bounds the recursion by the input length. -/
def stripFencesAux : Nat → List Char → List Char
  | 0, l => l
  | _ + 1, [] => []
  | fuel + 1, c :: rest =>
      if c == '`' then
        match rest with
        | c2 :: c3 :: rest2 =>
            if c2 == '`' && c3 == '`' then
              stripFencesAux fuel ((dropJsonWord rest2).dropWhile jsWhitespace)
            else c :: stripFencesAux fuel rest
        | _ => c :: stripFencesAux fuel rest
      else c :: stripFencesAux fuel rest

/-- The second replace on line 102 (`/three backticks/g` with no suffix
handling).  After the first pass no fence remains, but it is embedded for
fidelity to the source. -/
def stripBareFences : Nat → List Char → List Char
  | 0, l => l
  | _ + 1, [] => []
  | fuel + 1, c :: rest =>
      if c == '`' then
        match rest with
        | c2 :: c3 :: rest2 =>
            if c2 == '`' && c3 == '`' then stripBareFences fuel rest2
            else c :: stripBareFences fuel rest
        | _ => c :: stripBareFences fuel rest
      else c :: stripBareFences fuel rest

/-- JavaScript trim: whitespace removed from both ends. -/
def jsTrim (l : List Char) : List Char :=
  ((l.dropWhile jsWhitespace).reverse.dropWhile jsWhitespace).reverse

/-- The span matched by the greedy dotall regex `open .* close` (the
`/\x7b.*\x7d/s` or `/[.*]/s` on line 103): from the first opening
character to the last closing character strictly after it, or no match. -/
def regexSpan (openC closeC : Char) (l : List Char) : Option (List Char) :=
  match l.findIdx? (· == openC), (l.reverse.findIdx? (· == closeC)) with
  | some i, some k =>
      let j := l.length - 1 - k
      if i < j then some ((l.drop i).take (j - i + 1)) else none
  | _, _ => none

/-- The four control-character escapes of lines 111-114
(`\n`, `\r`, `\t`, `\f`, each replaced globally by its two-character
escape).  The four sequential replaces commute into one pass because no
replacement output contains a character a later pass rewrites. -/
def escapeCtl (l : List Char) : List Char :=
  l.flatMap fun c =>
    if c == '\n' then ['\\', 'n']
    else if c == '\r' then ['\\', 'r']
    else if c == '\t' then ['\\', 't']
    else if c == '\x0c' then ['\\', 'f']
    else [c]

/-- Line 115, `.replace(/\b/g, '\\b')`: a JavaScript `\b` outside a
character class asserts a *word boundary*, so this inserts the literal two
characters `\` `b` at every word boundary (including, when the string
starts or ends with a word character, its ends).  `prev` records whether
the previous character was a word character (false at the start). -/
def insertWordBoundaries (prev : Bool) : List Char → List Char
  | [] => if prev then ['\\', 'b'] else []
  | c :: rest =>
      let w := jsWordChar c
      (if prev != w then ['\\', 'b'] else []) ++ c :: insertWordBoundaries w rest

/-- The `type` parameter of `extractJSON` (`'object' | 'array'`). -/
inductive ExtractType
  | object | array
deriving DecidableEq, Repr

/-- The function extractJSON (src/server.ts lines 100-116): strip markdown fences,
trim, match the greedy brace (or bracket) span, then apply the control
character escapes and the word-boundary replace. -/
def extractJSON (text : String) (type_ : ExtractType := ExtractType.object) : Option String :=
  let cleaned := jsTrim (stripBareFences text.length (stripFencesAux text.length text.data))
  let span := match type_ with
    | ExtractType.array => regexSpan '[' ']' cleaned
    | ExtractType.object => regexSpan '{' '}' cleaned
  span.map fun jsonStr => (insertWordBoundaries false (escapeCtl jsonStr)).asString

/-- C3: the extraction step does NOT leave a clean span unchanged.  On the
raw generator response `\x7b"a":"b"\x7d` — already valid JSON with no
literal control characters inside string values, which the claim says must
pass through unchanged — `extractJSON` returns the span with a literal
backslash-b sequence injected at every word boundary, because the
source's `.replace(/\b/g, '\\b')` uses `\b` as a word-boundary assertion
rather than a backspace character.  The output differs from the input
span (and on spans containing numbers the injected backslashes make
`JSON.parse` fail outright). -/
theorem extractJSON_corrupts_clean_object :
    extractJSON "\x7b\"a\":\"b\"\x7d" ExtractType.object
      = some "\x7b\"\\ba\\b\":\"\\bb\\b\"\x7d"
    ∧ extractJSON "\x7b\"a\":\"b\"\x7d" ExtractType.object
      ≠ some "\x7b\"a\":\"b\"\x7d" := by
  constructor
  · rfl
  · decide

/-! ### Record store state (the SQLite tables the campaign handlers touch) -/

/-- A row of the `campaigns` table (fields the send handlers read/write). -/
structure CampaignRow where
  id : Nat
  subject_template : String
  body_template : String
  send_mode : SendMode
  drip_delay_minutes : Nat
  status : CampStatus
  total_sent : Nat
deriving DecidableEq, Repr

/-- A row of the `campaign_leads` join table; `sent_at` is modelled as a
set / not-set flag. -/
structure CLRow where
  campaign_id : Nat
  lead_id : Nat
  status : CLStatus
  sent_at : Bool
deriving DecidableEq, Repr

/-- A row of the `messages` table (append-only). -/
structure Message where
  lead_id : Nat
  direction : String
  content : String
  intent : String
deriving DecidableEq, Repr

/-- The database state threaded through the handlers. -/
structure DBState where
  leads : List Lead
  campaigns : List CampaignRow
  campaign_leads : List CLRow
  messages : List Message
deriving DecidableEq, Repr

/-- The settings key/value rows the send handlers read (absent key =
`none`, i.e. `undefined` in the source). -/
structure Settings where
  sender_name : Option String := none
  company_name : Option String := none
  service_description : Option String := none
  booking_link : Option String := none
  smtp_host : Option String := none
  smtp_user : Option String := none
  zoho_api_key : Option String := none
deriving DecidableEq, Repr

/-- SELECT * FROM leads WHERE id = ? (first matching row). -/
def findLead (st : DBState) (lid : Nat) : Option Lead :=
  st.leads.find? fun l => decide (l.id = lid)

/-- SELECT * FROM campaigns WHERE id = ?. -/
def findCampaign (st : DBState) (cid : Nat) : Option CampaignRow :=
  st.campaigns.find? fun c => decide (c.id = cid)

/-- An UPDATE ... WHERE: apply `f` to every row satisfying `p`. -/
def updWhere {α : Type} (p : α → Bool) (f : α → α) (l : List α) : List α :=
  l.map fun a => if p a then f a else a

/-- The WHERE campaign_id = ? AND lead_id = ? predicate. -/
def clPred (cid lid : Nat) (r : CLRow) : Bool :=
  decide (r.campaign_id = cid ∧ r.lead_id = lid)

/-- The row transform of UPDATE campaign_leads SET status='sent',
sent_at=CURRENT_TIMESTAMP. -/
def markRowSent (r : CLRow) : CLRow :=
  { r with status := CLStatus.sent, sent_at := true }

/-- UPDATE campaign_leads SET status='sent', sent_at=CURRENT_TIMESTAMP
WHERE campaign_id = ? AND lead_id = ? (src/server.ts line 986 / 1179). -/
def markCLSent (cid lid : Nat) (st : DBState) : DBState :=
  { st with campaign_leads := updWhere (clPred cid lid) markRowSent st.campaign_leads }

/-- UPDATE campaign_leads SET status='failed' WHERE campaign_id = ? AND
lead_id = ? (src/server.ts line 1001 / 1198); `sent_at` is untouched. -/
def markCLFailed (cid lid : Nat) (st : DBState) : DBState :=
  { st with campaign_leads :=
      updWhere (clPred cid lid) (fun r => { r with status := CLStatus.failed }) st.campaign_leads }

/-- stmtUpdateLeadStatus (src/server.ts line 26): UPDATE leads SET
status = ? WHERE id = ?; unconditional, whatever the previous status. -/
def updLeadStatus (stt : LeadStatus) (lid : Nat) (st : DBState) : DBState :=
  { st with leads :=
      updWhere (fun l => decide (l.id = lid)) (fun l => { l with status := stt }) st.leads }

/-- UPDATE campaigns SET status = ? WHERE id = ? (the unconditional
"active" update at the start of both send handlers). -/
def setCampaignStatus (stt : CampStatus) (cid : Nat) (st : DBState) : DBState :=
  { st with campaigns :=
      updWhere (fun c => decide (c.id = cid)) (fun c => { c with status := stt }) st.campaigns }

/-- stmtInsertMessage: INSERT INTO messages (append). -/
def addMessage (m : Message) (st : DBState) : DBState :=
  { st with messages := st.messages ++ [m] }

/-- SELECT COUNT(*) FROM campaign_leads WHERE campaign_id = ? AND
status = ?. -/
def countCL (st : DBState) (cid : Nat) (stt : CLStatus) : Nat :=
  (st.campaign_leads.filter fun r => decide (r.campaign_id = cid ∧ r.status = stt)).length

/-- The campaign rollup UPDATE after a send loop (src/server.ts lines
1007-1013 and 1203-1209): `total_sent` is recomputed as the count of
'sent' rows, and `status` becomes 'completed' when no 'pending' row
remains, else keeps its current value (the subselects read the
campaign_leads table as it stands when the UPDATE runs). -/
def rollupRow (st : DBState) (cid : Nat) (c : CampaignRow) : CampaignRow :=
  { c with total_sent := countCL st cid CLStatus.sent,
           status := if countCL st cid CLStatus.pending = 0
                     then CampStatus.completed else c.status }

/-- The rollup UPDATE applied to the campaigns table. -/
def updateCampaignStats (cid : Nat) (st : DBState) : DBState :=
  { st with campaigns :=
      updWhere (fun c => decide (c.id = cid)) (rollupRow st cid) st.campaigns }

/-- Status lookup for one campaign_leads row. -/
def clStatus (st : DBState) (cid lid : Nat) : Option CLStatus :=
  (st.campaign_leads.find? (clPred cid lid)).map (·.status)

/-- Status lookup for one lead. -/
def leadStatus (st : DBState) (lid : Nat) : Option LeadStatus :=
  (findLead st lid).map (·.status)

/-! ### Content resolution, delivery and the direct-send loop
(POST /api/campaigns/:id/send, src/server.ts lines 881-1020) -/

/-- A global literal replace, JavaScript `.replace(/escaped-literal/g, v)`
(left-to-right, non-overlapping; `$`-escape sequences in the replacement
are not modelled — no value in any verified statement contains `$`). -/
def replaceAllAux (pat rep : List Char) : Nat → List Char → List Char
  | 0, l => l
  | _ + 1, [] => []
  | fuel + 1, c :: cs =>
      if pat.isPrefixOf (c :: cs) && !pat.isEmpty then
        rep ++ replaceAllAux pat rep fuel (List.drop (pat.length - 1) cs)
      else c :: replaceAllAux pat rep fuel cs

/-- String wrapper for the global literal replace. -/
def jsReplaceAll (s pat rep : String) : String :=
  (replaceAllAux pat.data rep.data s.length s.data).asString

/-- The inner interpolateTemplate (src/server.ts lines 866-878), the one
in scope for the campaign handlers: nine chained global replaces in
source order, with empty-string fallbacks for missing values and
comma-joined metadata lists. -/
def interpolateTemplate (template : String) (lead : Lead) (settings : Settings) : String :=
  let t := jsReplaceAll template "\x7b\x7bbusiness_name\x7d\x7d" lead.business_name
  let t := jsReplaceAll t "\x7b\x7bindustry\x7d\x7d" (lead.industry.getD "")
  let t := jsReplaceAll t "\x7b\x7blocation\x7d\x7d" (lead.location.getD "")
  let t := jsReplaceAll t "\x7b\x7bsender_name\x7d\x7d" (settings.sender_name.getD "")
  let t := jsReplaceAll t "\x7b\x7bcompany_name\x7d\x7d" (settings.company_name.getD "")
  let t := jsReplaceAll t "\x7b\x7bservice\x7d\x7d" (settings.service_description.getD "")
  let t := jsReplaceAll t "\x7b\x7bbooking_link\x7d\x7d" (settings.booking_link.getD "")
  let t := jsReplaceAll t "\x7b\x7bpain_points\x7d\x7d" (String.intercalate ", " lead.metadata.pain_points)
  jsReplaceAll t "\x7b\x7bservices\x7d\x7d" (String.intercalate ", " lead.metadata.services)

/-- Outcome of one AI generation attempt for one lead: either a parsed
subject/body pair, or a throw (covering a Groq API error, an extractJSON
null result — thrown as "AI failed to generate email" — and a JSON.parse
failure), with the thrown message. -/
inductive GenResult
  | ok (subject body : String)
  | err (msg : String)
deriving DecidableEq, Repr

/-- Outcome of one provider call for one recipient: the provider accepted,
the provider returned a non-ok response, or the call threw.  In the send
handlers the latter two are indistinguishable in effect: both are caught
inside the provider branch and leave `emailSent` false. -/
inductive ProviderOutcome
  | ok | rejected | threw
deriving DecidableEq, Repr

/-- The per-lead external world of a send run: what the content generator
and the delivery provider do for each lead id. -/
structure SendEnv where
  gen : Nat → GenResult
  deliver : Nat → ProviderOutcome

/-- Content resolution for one recipient (step inside the loop, lines
907-938): interpolate both templates when both are truthy (non-empty),
otherwise the AI generation result; a generation throw aborts only this
recipient. -/
def resolveContent (c : CampaignRow) (s : Settings) (g : GenResult) (lead : Lead) :
    Except String (String × String) :=
  if c.subject_template ≠ "" ∧ c.body_template ≠ "" then
    Except.ok (interpolateTemplate c.subject_template lead s,
               interpolateTemplate c.body_template lead s)
  else
    match g with
    | GenResult.ok subject body => Except.ok (subject, body)
    | GenResult.err m => Except.error m

/-- Whether content resolution succeeds (the recipient's try block runs to
completion). -/
def resolveSucceeds (c : CampaignRow) (s : Settings) (g : GenResult) (lead : Lead) : Bool :=
  match resolveContent c s g lead with
  | Except.ok _ => true
  | Except.error _ => false

/-- The delivery attempt (lines 941-979 / 1152-1175): Zoho if an API key
is configured and the lead has an email, else SMTP if a transporter was
built (`smtp_host` and `smtp_user` truthy) and the lead has an email,
else no attempt.  Every provider failure (non-ok response or throw) is
caught inside its branch, so delivery only ever yields the `emailSent`
flag — it can never abort the recipient. -/
def attemptDelivery (s : Settings) (d : ProviderOutcome) (email : Option String) : Bool :=
  if truthy s.zoho_api_key && truthy email then
    match d with
    | ProviderOutcome.ok => true
    | ProviderOutcome.rejected => false
    | ProviderOutcome.threw => false
  else if (truthy s.smtp_host && truthy s.smtp_user) && truthy email then
    match d with
    | ProviderOutcome.ok => true
    | ProviderOutcome.rejected => false
    | ProviderOutcome.threw => false
  else false

/-- What one loop iteration reported. -/
inductive StepOutcome
  | success
  | failure (msg : String)
deriving DecidableEq, Repr

/-- One iteration of the direct-send loop body (lines 905-1003) for the
joined pending row of `lead`: resolve content; on a throw, the catch
block marks the campaign_leads row 'failed' and records the error
string; otherwise attempt delivery (its result is only logged), insert
the outbound Message, mark the row 'sent' with `sent_at` set, and force
the lead's own status to 'emailed'. -/
def processRecipient (st : DBState) (cid : Nat) (c : CampaignRow) (s : Settings)
    (g : GenResult) (d : ProviderOutcome) (lead : Lead) : DBState × StepOutcome :=
  match resolveContent c s g lead with
  | Except.error m =>
      (markCLFailed cid lead.id st, StepOutcome.failure (lead.business_name ++ ": " ++ m))
  | Except.ok (subject, body) =>
      let _emailSent := attemptDelivery s d lead.email
      let st1 := addMessage
        { lead_id := lead.id, direction := "outbound",
          content := "Subject: " ++ subject ++ "\n\n" ++ body, intent := "campaign" } st
      let st2 := markCLSent cid lead.id st1
      let st3 := updLeadStatus LeadStatus.emailed lead.id st2
      (st3, StepOutcome.success)

/-- Tally returned by a send run. -/
structure SendResult where
  sent : Nat
  failed : Nat
  errors : List String
deriving DecidableEq, Repr

/-- The drip pacing delay of the direct-send path (lines 994-997):
`(drip_delay_minutes || 5) * 60 * 1000` milliseconds, capped by
`Math.min(_, 300000)`. -/
def dripDelayMs (c : CampaignRow) : Nat :=
  min ((if c.drip_delay_minutes = 0 then 5 else c.drip_delay_minutes) * 60 * 1000) 300000

/-- Stable descending insertion for ORDER BY lead_score DESC (ties keep
their relative order). -/
def insertByScore (x : Lead) : List Lead → List Lead
  | [] => [x]
  | y :: ys => if x.lead_score < y.lead_score then y :: insertByScore x ys else x :: y :: ys

/-- Stable sort by descending lead_score. -/
def sortByScoreDesc : List Lead → List Lead
  | [] => []
  | x :: xs => insertByScore x (sortByScoreDesc xs)

/-- The pending-recipient query of both send and preview (lines 887-892):
campaign_leads rows of this campaign with status 'pending', inner-joined
with their lead, ordered by descending lead score. -/
def pendingJoin (st : DBState) (cid : Nat) : List Lead :=
  sortByScoreDesc
    ((st.campaign_leads.filter fun r => decide (r.campaign_id = cid ∧ r.status = CLStatus.pending)).filterMap
      fun r => findLead st r.lead_id)

/-- The direct-send loop (lines 904-1004).  The returned list is the trace
of inter-send delays issued, in order.  A delay runs only at the end of a
successful iteration (a throw jumps to the catch block, skipping it) and
only in drip mode when this is not the last pending recipient. -/
def directLoop (c : CampaignRow) (s : Settings) (env : SendEnv) (cid : Nat) :
    DBState → List Lead → DBState × SendResult × List Nat
  | st, [] => (st, ⟨0, 0, []⟩, [])
  | st, lead :: rest =>
      match processRecipient st cid c s (env.gen lead.id) (env.deliver lead.id) lead with
      | (st', StepOutcome.success) =>
          let r := directLoop c s env cid st' rest
          (r.1, ⟨r.2.1.sent + 1, r.2.1.failed, r.2.1.errors⟩,
            (if c.send_mode = SendMode.drip ∧ rest ≠ [] then [dripDelayMs c] else []) ++ r.2.2)
      | (st', StepOutcome.failure m) =>
          let r := directLoop c s env cid st' rest
          (r.1, ⟨r.2.1.sent, r.2.1.failed + 1, m :: r.2.1.errors⟩, r.2.2)

/-- POST /api/campaigns/:id/send (src/server.ts lines 881-1020): 404 when
the campaign is missing; immediate `sent: 0` success when nothing is
pending; otherwise set the campaign 'active', run the loop over the
pending snapshot, then recompute the rollup counters. -/
def sendCampaign (st : DBState) (s : Settings) (env : SendEnv) (cid : Nat) :
    Except String (DBState × SendResult × List Nat) :=
  match findCampaign st cid with
  | none => Except.error "Campaign not found"
  | some campaign =>
      let pending := pendingJoin st cid
      if pending = [] then Except.ok (st, ⟨0, 0, []⟩, [])
      else
        let st1 := setCampaignStatus CampStatus.active cid st
        let r := directLoop campaign s env cid st1 pending
        Except.ok (updateCampaignStats cid r.1, r.2.1, r.2.2)

/-- Projection: the final state of a non-404 run. -/
def stateOf (x : Except String (DBState × SendResult × List Nat)) : Option DBState :=
  match x with
  | Except.ok t => some t.1
  | Except.error _ => none

/-- Projection: the tally of a non-404 run. -/
def resultOf (x : Except String (DBState × SendResult × List Nat)) : Option SendResult :=
  match x with
  | Except.ok t => some t.2.1
  | Except.error _ => none

/-- Projection: the delay trace of a non-404 run. -/
def delaysOf (x : Except String (DBState × SendResult × List Nat)) : Option (List Nat) :=
  match x with
  | Except.ok t => some t.2.2
  | Except.error _ => none

/-! ### Preview send (POST /api/campaigns/:id/send-previews, lines 1129-1215) -/

/-- One element of the request's `previews` array (the fields the handler
reads, per its own type annotation on line 1131). -/
structure Preview where
  lead_id : Nat
  subject : String
  body : String
  selected : Bool
deriving DecidableEq, Repr

/-- The per-step delay of the preview-send loop (lines 1187-1194):
`(drip_delay_minutes || 5) * 60 * 1000` in drip mode — with no
`Math.min` cap — and a fixed 2000 ms in bulk mode. -/
def previewStepDelayMs (c : CampaignRow) : Nat :=
  if c.send_mode = SendMode.drip then
    (if c.drip_delay_minutes = 0 then 5 else c.drip_delay_minutes) * 60 * 1000
  else 2000

/-- The outbound Message recorded for a preview (line 1177-1178): the
edited subject/body are used verbatim. -/
def previewMsg (p : Preview) : Message :=
  { lead_id := p.lead_id, direction := "outbound",
    content := "Subject: " ++ p.subject ++ "\n\n" ++ p.body, intent := "campaign" }

/-- The preview-send loop (lines 1146-1201) over the already-filtered
selected previews.  A preview whose lead id has no leads row hits
`continue` (line 1149): nothing is recorded, no tally moves, and the
delay is skipped.  For a found lead the try block cannot throw in this
model — both provider branches swallow their errors — so the recipient is
recorded, marked 'sent', the lead forced to 'emailed', and the safety
delay runs when this is not the last selected preview. -/
def previewLoop (c : CampaignRow) (s : Settings) (env : SendEnv) (cid : Nat) :
    DBState → List Preview → DBState × SendResult × List Nat
  | st, [] => (st, ⟨0, 0, []⟩, [])
  | st, p :: rest =>
      match findLead st p.lead_id with
      | none => previewLoop c s env cid st rest
      | some lead =>
          let _emailSent := attemptDelivery s (env.deliver p.lead_id) lead.email
          let st1 := addMessage (previewMsg p) st
          let st2 := markCLSent cid p.lead_id st1
          let st3 := updLeadStatus LeadStatus.emailed p.lead_id st2
          let r := previewLoop c s env cid st3 rest
          (r.1, ⟨r.2.1.sent + 1, r.2.1.failed, r.2.1.errors⟩,
            (if rest ≠ [] then [previewStepDelayMs c] else []) ++ r.2.2)

/-- POST /api/campaigns/:id/send-previews (lines 1129-1215): 404 when the
campaign is missing; otherwise filter to `selected = true`, set the
campaign 'active', run the loop, recompute the rollup. -/
def sendCampaignPreviews (st : DBState) (s : Settings) (env : SendEnv) (cid : Nat)
    (previews : List Preview) : Except String (DBState × SendResult × List Nat) :=
  match findCampaign st cid with
  | none => Except.error "Campaign not found"
  | some campaign =>
      let selectedPreviews := previews.filter (·.selected)
      let st1 := setCampaignStatus CampStatus.active cid st
      let r := previewLoop campaign s env cid st1 selectedPreviews
      Except.ok (updateCampaignStats cid r.1, r.2.1, r.2.2)

/-- The selected previews whose lead id has a leads row (the ones the
preview-send loop actually processes), computed against a fixed state. -/
def selectedFound (st : DBState) (previews : List Preview) : List Preview :=
  (previews.filter (·.selected)).filter fun p => (findLead st p.lead_id).isSome

/-! ### Assigning leads (POST /api/campaigns/:id/leads, lines 833-853) -/

/-- The fresh row an INSERT of one (campaign, lead) pair creates. -/
def pendingRow (cid lid : Nat) : CLRow :=
  { campaign_id := cid, lead_id := lid, status := CLStatus.pending, sent_at := false }

/-- The state after a successful insert of one fresh pending pair. -/
def insertedState (st : DBState) (cid lid : Nat) : DBState :=
  { st with campaign_leads := st.campaign_leads ++ [pendingRow cid lid] }

/-- Modelled from the spec: the campaign_leads schema lives in
src/db/index.js, which is not part of the provided sources.  Per spec §3
the `(campaign_id, lead_id)` pair is "unique per pair (idempotent
re-add)" and new rows enter the per-recipient state machine as 'pending';
`INSERT OR IGNORE` therefore inserts a fresh 'pending' row when the pair
is absent and is a no-op (zero changes, the Bool) when it exists. -/
def insertOrIgnoreCL (st : DBState) (cid lid : Nat) : DBState × Bool :=
  if st.campaign_leads.any (clPred cid lid) then (st, false)
  else (insertedState st cid lid, true)

/-- POST /api/campaigns/:id/leads (lines 833-853): one INSERT OR IGNORE
per requested lead id inside a transaction, counting the inserts whose
`changes > 0`; returns the new state and the `added` tally. -/
def addLeadsToCampaign (st : DBState) (cid : Nat) (leadIds : List Nat) : DBState × Nat :=
  match leadIds with
  | [] => (st, 0)
  | lid :: rest =>
      let r := insertOrIgnoreCL st cid lid
      let r2 := addLeadsToCampaign r.1 cid rest
      (r2.1, (if r.2 then 1 else 0) + r2.2)

/-- Number of campaign_leads rows for one (campaign, lead) pair. -/
def countPair (st : DBState) (cid lid : Nat) : Nat :=
  st.campaign_leads.countP (clPred cid lid)

/-! ### Lemmas about the table primitives -/

/-- A WHERE-conditioned UPDATE transforms exactly the row a find? on the
same predicate returns. -/
theorem find?_updWhere {α : Type} (p : α → Bool) (f : α → α) (l : List α)
    (hf : ∀ a, p (f a) = p a) :
    (updWhere p f l).find? p = (l.find? p).map f := by
  induction l with
  | nil => rfl
  | cons a t ih =>
      by_cases hpa : p a = true
      · simp only [updWhere, List.map_cons, if_pos hpa]
        rw [List.find?_cons_of_pos _ ((hf a).trans hpa),
            List.find?_cons_of_pos _ hpa, Option.map_some']
      · simp only [updWhere, List.map_cons, if_neg hpa]
        rw [List.find?_cons_of_neg _ (by simpa using hpa),
            List.find?_cons_of_neg _ (by simpa using hpa)]
        exact ih

/-- A WHERE-conditioned UPDATE whose transform preserves a predicate `q`
preserves whether a find? on `q` succeeds. -/
theorem find?_updWhere_isSome {α : Type} (q p : α → Bool) (f : α → α) (l : List α)
    (hf : ∀ a, q (f a) = q a) :
    ((updWhere p f l).find? q).isSome = (l.find? q).isSome := by
  induction l with
  | nil => rfl
  | cons a t ih =>
      by_cases hqa : q a = true
      · by_cases hpa : p a = true
        · simp only [updWhere, List.map_cons, if_pos hpa]
          rw [List.find?_cons_of_pos _ ((hf a).trans hqa), List.find?_cons_of_pos _ hqa]
          rfl
        · simp only [updWhere, List.map_cons, if_neg hpa]
          rw [List.find?_cons_of_pos _ hqa, List.find?_cons_of_pos _ hqa]
      · by_cases hpa : p a = true
        · simp only [updWhere, List.map_cons, if_pos hpa]
          have hqfa : ¬ q (f a) = true := by rw [hf a]; exact hqa
          rw [List.find?_cons_of_neg _ (by simpa using hqfa),
              List.find?_cons_of_neg _ (by simpa using hqa)]
          exact ih
        · simp only [updWhere, List.map_cons, if_neg hpa]
          rw [List.find?_cons_of_neg _ (by simpa using hqa),
              List.find?_cons_of_neg _ (by simpa using hqa)]
          exact ih

/-- markRowSent keeps the key columns. -/
theorem clPred_markRowSent (cid lid : Nat) (r : CLRow) :
    clPred cid lid (markRowSent r) = clPred cid lid r := rfl

/-- Marking a row 'sent' updates exactly the row clStatus reads. -/
theorem clStatus_markCLSent (st : DBState) (cid lid : Nat) :
    clStatus (markCLSent cid lid st) cid lid
      = (clStatus st cid lid).map (fun _ => CLStatus.sent) := by
  simp only [clStatus, markCLSent]
  rw [find?_updWhere (clPred cid lid) markRowSent st.campaign_leads (clPred_markRowSent cid lid)]
  cases st.campaign_leads.find? (clPred cid lid) <;> rfl

/-- Marking a row 'failed' updates exactly the row clStatus reads. -/
theorem clStatus_markCLFailed (st : DBState) (cid lid : Nat) :
    clStatus (markCLFailed cid lid st) cid lid
      = (clStatus st cid lid).map (fun _ => CLStatus.failed) := by
  simp only [clStatus, markCLFailed]
  rw [find?_updWhere (clPred cid lid) (fun r => { r with status := CLStatus.failed })
        st.campaign_leads (fun _ => rfl)]
  cases st.campaign_leads.find? (clPred cid lid) <;> rfl

/-- addMessage leaves campaign_leads alone. -/
theorem clStatus_addMessage (m : Message) (st : DBState) (cid lid : Nat) :
    clStatus (addMessage m st) cid lid = clStatus st cid lid := rfl

/-- updLeadStatus leaves campaign_leads alone. -/
theorem clStatus_updLeadStatus (stt : LeadStatus) (lid' : Nat) (st : DBState) (cid lid : Nat) :
    clStatus (updLeadStatus stt lid' st) cid lid = clStatus st cid lid := rfl

/-- Whether a lead id exists is untouched by a lead status update (the
transform keeps `id`), and trivially by message / campaign_leads /
campaigns writes. -/
theorem findLead_isSome_updLeadStatus (stt : LeadStatus) (lid' : Nat) (st : DBState) (lid : Nat) :
    (findLead (updLeadStatus stt lid' st) lid).isSome = (findLead st lid).isSome := by
  simp only [findLead, updLeadStatus]
  exact find?_updWhere_isSome _ _ _ st.leads (fun _ => rfl)

/-! ### C1 — delivery-failure semantics of the direct send -/

/-- Concrete scenario for C1: one pending recipient with an email address,
a campaign with non-empty templates, Zoho configured, and a provider that
rejects the message. -/
def c1Lead : Lead :=
  { id := 7, business_name := "Acme", website := none, industry := none,
    location := none, rating := none, email := some "a@b.c", phone := none,
    status := LeadStatus.enriched, lead_score := 50, metadata := ⟨[], []⟩ }

/-- The C1 campaign (template mode, bulk). -/
def c1Camp : CampaignRow :=
  { id := 1, subject_template := "S", body_template := "B",
    send_mode := SendMode.bulk, drip_delay_minutes := 5,
    status := CampStatus.draft, total_sent := 0 }

/-- The C1 initial database. -/
def c1St : DBState :=
  { leads := [c1Lead], campaigns := [c1Camp],
    campaign_leads := [{ campaign_id := 1, lead_id := 7, status := CLStatus.pending, sent_at := false }],
    messages := [] }

/-- The C1 settings: a Zoho API key is configured. -/
def c1Settings : Settings := { zoho_api_key := some "k" }

/-- The C1 environment: the provider rejects every message. -/
def c1Env : SendEnv :=
  { gen := fun _ => GenResult.err "unused", deliver := fun _ => ProviderOutcome.rejected }

/-- C1, counterexample: with the provider rejecting the delivery of the
only recipient, sendCampaign still reports `sent = 1, failed = 0` with an
empty error list and marks the CampaignLead row 'sent' — the claim says
such a recipient is marked 'failed', tallied as failed with an error
string, and not marked 'sent'. -/
theorem sendCampaign_provider_rejection_counterexample :
    c1Env.deliver 7 = ProviderOutcome.rejected
    ∧ resultOf (sendCampaign c1St c1Settings c1Env 1) = some ⟨1, 0, []⟩
    ∧ (stateOf (sendCampaign c1St c1Settings c1Env 1)).map (fun st => clStatus st 1 7)
        = some (some CLStatus.sent) := by
  refine ⟨rfl, rfl, rfl⟩

/-- C1, amended: per-recipient failure is decided by content resolution
alone.  One loop iteration is entirely independent of the delivery
outcome (both provider branches catch their own errors); if resolution
throws, the row — assumed 'pending', as the loop only visits pending
rows — becomes 'failed' and the iteration reports the error string
`business_name ++ ": " ++ reason`; otherwise the row becomes 'sent'
(whatever the provider did) and the iteration reports success. -/
theorem processRecipient_failure_semantics (st : DBState) (cid : Nat) (c : CampaignRow)
    (s : Settings) (g : GenResult) (d d' : ProviderOutcome) (lead : Lead)
    (h : clStatus st cid lead.id = some CLStatus.pending) :
    processRecipient st cid c s g d lead = processRecipient st cid c s g d' lead
    ∧ clStatus (processRecipient st cid c s g d lead).1 cid lead.id
        = some (if resolveSucceeds c s g lead then CLStatus.sent else CLStatus.failed)
    ∧ (processRecipient st cid c s g d lead).2
        = (match resolveContent c s g lead with
           | Except.ok _ => StepOutcome.success
           | Except.error m => StepOutcome.failure (lead.business_name ++ ": " ++ m)) := by
  refine ⟨rfl, ?_, ?_⟩
  · cases hres : resolveContent c s g lead with
    | error m =>
        simp only [processRecipient, hres, resolveSucceeds]
        rw [clStatus_markCLFailed, h]
        rfl
    | ok sb =>
        simp only [processRecipient, hres, resolveSucceeds]
        rw [clStatus_updLeadStatus, clStatus_markCLSent, clStatus_addMessage, h]
        rfl
  · cases hres : resolveContent c s g lead with
    | error m => simp only [processRecipient, hres]
    | ok sb => simp only [processRecipient, hres]

/-- C1, witness: the amended theorem applied at the C1 scenario (where
resolution succeeds via the templates), with the delivery outcomes
rejected and threw. -/
theorem processRecipient_failure_semantics_witness :
    processRecipient c1St 1 c1Camp c1Settings (GenResult.err "unused")
        ProviderOutcome.rejected c1Lead
      = processRecipient c1St 1 c1Camp c1Settings (GenResult.err "unused")
        ProviderOutcome.threw c1Lead
    ∧ clStatus (processRecipient c1St 1 c1Camp c1Settings (GenResult.err "unused")
        ProviderOutcome.rejected c1Lead).1 1 c1Lead.id
        = some (if resolveSucceeds c1Camp c1Settings (GenResult.err "unused") c1Lead
                then CLStatus.sent else CLStatus.failed)
    ∧ (processRecipient c1St 1 c1Camp c1Settings (GenResult.err "unused")
        ProviderOutcome.rejected c1Lead).2
        = (match resolveContent c1Camp c1Settings (GenResult.err "unused") c1Lead with
           | Except.ok _ => StepOutcome.success
           | Except.error m => StepOutcome.failure (c1Lead.business_name ++ ": " ++ m)) :=
  processRecipient_failure_semantics c1St 1 c1Camp c1Settings (GenResult.err "unused")
    ProviderOutcome.rejected ProviderOutcome.threw c1Lead rfl

/-! ### C2 — successful sends regress advanced lead statuses -/

/-- Concrete scenario for C2: the lead has already reached 'booked'. -/
def c2Lead : Lead :=
  { id := 5, business_name := "Bravo", website := none, industry := none,
    location := none, rating := none, email := none, phone := none,
    status := LeadStatus.booked, lead_score := 40, metadata := ⟨[], []⟩ }

/-- The C2 campaign (template mode). -/
def c2Camp : CampaignRow :=
  { id := 3, subject_template := "S", body_template := "B",
    send_mode := SendMode.bulk, drip_delay_minutes := 5,
    status := CampStatus.active, total_sent := 0 }

/-- The C2 initial database: the booked lead sits in a pending
campaign_leads row. -/
def c2St : DBState :=
  { leads := [c2Lead], campaigns := [c2Camp],
    campaign_leads := [{ campaign_id := 3, lead_id := 5, status := CLStatus.pending, sent_at := false }],
    messages := [] }

/-- An environment with no provider configured and no generation needed. -/
def c2Env : SendEnv :=
  { gen := fun _ => GenResult.err "unused", deliver := fun _ => ProviderOutcome.ok }

/-- C2, code bug: a lead whose status is already 'booked' is pushed back
to 'emailed' by a successful direct campaign send —
`stmtUpdateLeadStatus.run('emailed', ...)` on src/server.ts line 990 is
unconditional, violating the spec's no-regression invariant (which the
spec itself flags in §9 as a likely unintended regression). -/
theorem sendCampaign_regresses_booked_lead :
    leadStatus c2St 5 = some LeadStatus.booked
    ∧ (stateOf (sendCampaign c2St {} c2Env 3)).map (fun st => leadStatus st 5)
        = some (some LeadStatus.emailed)
    ∧ resultOf (sendCampaign c2St {} c2Env 3) = some ⟨1, 0, []⟩ := by
  refine ⟨rfl, rfl, rfl⟩

/-! ### C5 — inter-send delays of the direct send -/

/-- The delay trace of the direct-send loop, closed form: in drip mode one
delay of `dripDelayMs` per non-last pending recipient whose processing
succeeded (the delay sits at the end of the try block, so a throwing
recipient skips it); in bulk mode none.  Which recipients succeed depends
only on content resolution, never on the evolving state. -/
theorem directLoop_delays (c : CampaignRow) (s : Settings) (env : SendEnv) (cid : Nat) :
    ∀ (ls : List Lead) (st : DBState),
    (directLoop c s env cid st ls).2.2 =
      if c.send_mode = SendMode.drip then
        ((ls.dropLast).filter fun l => resolveSucceeds c s (env.gen l.id) l).map
          (fun _ => dripDelayMs c)
      else [] := by
  intro ls
  induction ls with
  | nil => intro st; cases hm : c.send_mode <;> simp [directLoop, hm]
  | cons lead rest ih =>
      intro st
      cases hres : resolveContent c s (env.gen lead.id) lead with
      | ok sb =>
          have hsucc : resolveSucceeds c s (env.gen lead.id) lead = true := by
            simp [resolveSucceeds, hres]
          simp only [directLoop, processRecipient, hres]
          rw [ih]
          cases rest with
          | nil => cases hm : c.send_mode <;> simp [hm, List.dropLast]
          | cons r rs =>
              cases hm : c.send_mode <;>
                simp [hm, List.dropLast, hsucc, dripDelayMs]
      | error m =>
          have hsucc : resolveSucceeds c s (env.gen lead.id) lead = false := by
            simp [resolveSucceeds, hres]
          simp only [directLoop, processRecipient, hres]
          rw [ih]
          cases rest with
          | nil => cases hm : c.send_mode <;> simp [hm, List.dropLast]
          | cons r rs =>
              cases hm : c.send_mode <;> simp [hm, List.dropLast, hsucc]

/-- C5, amended: the delay trace of a direct send is: in drip mode, one
delay after every non-last pending recipient whose processing succeeds —
a recipient that throws (e.g., AI generation failure) skips its delay —
each of `min((drip_delay_minutes, defaulting to 5 when 0) * 60000,
300000)` ms; in bulk mode, no delay at all. -/
theorem directSend_delay_trace (st : DBState) (s : Settings) (env : SendEnv) (cid : Nat)
    (c : CampaignRow) (h : findCampaign st cid = some c) :
    delaysOf (sendCampaign st s env cid) =
      some (if c.send_mode = SendMode.drip then
        (((pendingJoin st cid).dropLast).filter fun l => resolveSucceeds c s (env.gen l.id) l).map
          (fun _ => dripDelayMs c)
      else []) := by
  simp only [sendCampaign, h]
  by_cases hp : pendingJoin st cid = []
  · cases hm : c.send_mode <;> simp [hp, hm, delaysOf]
  · simp only [if_neg hp, delaysOf]
    rw [directLoop_delays]

/-- Concrete C5 scenario: three pending leads, drip mode with a configured
`drip_delay_minutes = 0`, AI-generation mode, and the highest-scored
lead's generation failing. -/
def c5LeadA : Lead :=
  { id := 1, business_name := "Alpha", website := none, industry := none,
    location := none, rating := none, email := none, phone := none,
    status := LeadStatus.enriched, lead_score := 30, metadata := ⟨[], []⟩ }

/-- Second C5 lead. -/
def c5LeadB : Lead :=
  { id := 2, business_name := "Beta", website := none, industry := none,
    location := none, rating := none, email := none, phone := none,
    status := LeadStatus.enriched, lead_score := 20, metadata := ⟨[], []⟩ }

/-- Third C5 lead. -/
def c5LeadC : Lead :=
  { id := 3, business_name := "Gamma", website := none, industry := none,
    location := none, rating := none, email := none, phone := none,
    status := LeadStatus.enriched, lead_score := 10, metadata := ⟨[], []⟩ }

/-- The C5 campaign: drip mode, delay minutes configured to 0 (reachable
via PATCH /api/campaigns/:id), empty templates. -/
def c5Camp : CampaignRow :=
  { id := 9, subject_template := "", body_template := "",
    send_mode := SendMode.drip, drip_delay_minutes := 0,
    status := CampStatus.active, total_sent := 0 }

/-- The C5 initial database. -/
def c5St : DBState :=
  { leads := [c5LeadA, c5LeadB, c5LeadC], campaigns := [c5Camp],
    campaign_leads :=
      [{ campaign_id := 9, lead_id := 1, status := CLStatus.pending, sent_at := false },
       { campaign_id := 9, lead_id := 2, status := CLStatus.pending, sent_at := false },
       { campaign_id := 9, lead_id := 3, status := CLStatus.pending, sent_at := false }],
    messages := [] }

/-- The C5 environment: generation fails for lead 1, succeeds otherwise. -/
def c5Env : SendEnv :=
  { gen := fun lid => if lid = 1 then GenResult.err "AI failed to generate email"
                      else GenResult.ok "s" "b",
    deliver := fun _ => ProviderOutcome.ok }

/-- C5, counterexample: with 3 pending leads in a drip campaign configured
with `drip_delay_minutes = 0` and the first (highest-scored) recipient's
generation failing, the run issues ONE delay of 300000 ms — the claim
predicts exactly n-1 = 2 delays, each of `min(0 * 60000, 300000) = 0` ms.
The failure skips its delay, and `drip_delay_minutes || 5` turns the
configured 0 into 5 minutes, capped to 300000. -/
theorem directSend_delay_claim_counterexample :
    (pendingJoin c5St 9).length = 3
    ∧ c5Camp.send_mode = SendMode.drip
    ∧ c5Camp.drip_delay_minutes = 0
    ∧ delaysOf (sendCampaign c5St {} c5Env 9) = some [300000]
    ∧ ([300000] : List Nat) ≠ List.replicate (3 - 1) (min (0 * 60000) 300000) := by
  refine ⟨rfl, rfl, rfl, rfl, by decide⟩

/-- C5, witness: the amended delay-trace theorem applied at the C5
scenario. -/
theorem directSend_delay_trace_witness :
    delaysOf (sendCampaign c5St {} c5Env 9) =
      some (if c5Camp.send_mode = SendMode.drip then
        (((pendingJoin c5St 9).dropLast).filter
          fun l => resolveSucceeds c5Camp {} (c5Env.gen l.id) l).map
          (fun _ => dripDelayMs c5Camp)
      else []) :=
  directSend_delay_trace c5St {} c5Env 9 c5Camp rfl

/-! ### C6 — rollup counters and the completion transition -/

/-- The per-recipient loop never writes the campaigns table. -/
theorem directLoop_campaigns (c : CampaignRow) (s : Settings) (env : SendEnv) (cid : Nat) :
    ∀ (ls : List Lead) (st : DBState),
    (directLoop c s env cid st ls).1.campaigns = st.campaigns := by
  intro ls
  induction ls with
  | nil => intro st; rfl
  | cons lead rest ih =>
      intro st
      cases hres : resolveContent c s (env.gen lead.id) lead <;>
        simp only [directLoop, processRecipient, hres] <;> rw [ih] <;> rfl

/-- findCampaign reads only the campaigns table. -/
theorem findCampaign_eq_of_campaigns_eq (st1 st2 : DBState) (cid : Nat)
    (h : st1.campaigns = st2.campaigns) :
    findCampaign st1 cid = findCampaign st2 cid := by
  simp [findCampaign, h]

/-- Setting a campaign's status rewrites exactly the row findCampaign
returns. -/
theorem findCampaign_setStatus (st : DBState) (cid : Nat) (stt : CampStatus)
    (c : CampaignRow) (h : findCampaign st cid = some c) :
    findCampaign (setCampaignStatus stt cid st) cid = some { c with status := stt } := by
  simp only [findCampaign, setCampaignStatus] at h ⊢
  rw [find?_updWhere (fun c => decide (c.id = cid)) (fun c => { c with status := stt })
        st.campaigns (fun _ => rfl), h, Option.map_some']

/-- The rollup UPDATE rewrites exactly the row findCampaign returns. -/
theorem findCampaign_updateStats (st : DBState) (cid : Nat)
    (c : CampaignRow) (h : findCampaign st cid = some c) :
    findCampaign (updateCampaignStats cid st) cid = some (rollupRow st cid c) := by
  simp only [findCampaign, updateCampaignStats] at h ⊢
  have hid : ∀ a : CampaignRow,
      (fun x => decide (x.id = cid)) (rollupRow st cid a) = (fun x => decide (x.id = cid)) a :=
    fun a => rfl
  rw [find?_updWhere (fun x => decide (x.id = cid)) (rollupRow st cid) st.campaigns hid, h,
      Option.map_some']

/-- The rollup UPDATE does not touch campaign_leads. -/
theorem countCL_updateStats (cid : Nat) (st : DBState) (cid' : Nat) (stt : CLStatus) :
    countCL (updateCampaignStats cid st) cid' stt = countCL st cid' stt := rfl

/-- The final database of a send run (the initial one on a 404). -/
def finalStateOf (st : DBState) (s : Settings) (env : SendEnv) (cid : Nat) : DBState :=
  (stateOf (sendCampaign st s env cid)).getD st

/-- C6: after the per-recipient loop of a direct send run (the campaign
exists and at least one row was pending, so the loop and the rollup
UPDATE actually run), the campaign's `total_sent` equals the count of its
campaign_leads rows with status 'sent', and its status is 'completed'
when zero rows remain 'pending', else 'active' (the status the run set
before the loop). -/
theorem directSend_rollup_and_completion (st : DBState) (s : Settings) (env : SendEnv)
    (cid : Nat) (c : CampaignRow) (h : findCampaign st cid = some c)
    (hp : ¬ pendingJoin st cid = []) :
    (findCampaign (finalStateOf st s env cid) cid).map (fun x => (x.total_sent, x.status))
      = some (countCL (finalStateOf st s env cid) cid CLStatus.sent,
              if countCL (finalStateOf st s env cid) cid CLStatus.pending = 0
              then CampStatus.completed else CampStatus.active) := by
  have hfinal : finalStateOf st s env cid
      = updateCampaignStats cid
          ((directLoop c s env cid (setCampaignStatus CampStatus.active cid st)
            (pendingJoin st cid)).1) := by
    simp only [finalStateOf, sendCampaign, h, if_neg hp, stateOf, Option.getD_some]
  have hc2 : findCampaign
      ((directLoop c s env cid (setCampaignStatus CampStatus.active cid st)
        (pendingJoin st cid)).1) cid = some { c with status := CampStatus.active } := by
    rw [findCampaign_eq_of_campaigns_eq _ (setCampaignStatus CampStatus.active cid st) cid
          (directLoop_campaigns c s env cid _ _)]
    exact findCampaign_setStatus st cid CampStatus.active c h
  rw [hfinal, findCampaign_updateStats _ cid _ hc2, countCL_updateStats, countCL_updateStats,
      Option.map_some']
  rfl

/-- C6, witness: the rollup theorem at the C2 scenario (campaign 3, one
pending lead). -/
theorem directSend_rollup_and_completion_witness :
    (findCampaign (finalStateOf c2St {} c2Env 3) 3).map (fun x => (x.total_sent, x.status))
      = some (countCL (finalStateOf c2St {} c2Env 3) 3 CLStatus.sent,
              if countCL (finalStateOf c2St {} c2Env 3) 3 CLStatus.pending = 0
              then CampStatus.completed else CampStatus.active) :=
  directSend_rollup_and_completion c2St {} c2Env 3 c2Camp rfl (by decide)

/-! ### Lemmas about the preview-send loop -/

/-- findLead reads only the leads table, which setCampaignStatus leaves
alone. -/
theorem findLead_setCampaignStatus (stt : CampStatus) (cid : Nat) (st : DBState) (lid : Nat) :
    findLead (setCampaignStatus stt cid st) lid = findLead st lid := rfl

/-- Whether a lead id exists is invariant under one full preview-loop step
(message insert, campaign_leads mark, lead status update). -/
theorem findLead_isSome_previewStep (stt : LeadStatus) (lid' cid : Nat) (m : Message)
    (st : DBState) (lid : Nat) :
    (findLead (updLeadStatus stt lid' (markCLSent cid lid' (addMessage m st))) lid).isSome
      = (findLead st lid).isSome := by
  rw [findLead_isSome_updLeadStatus]
  rfl

/-- The delay trace of the preview-send loop, closed form: one
`previewStepDelayMs` per non-last element whose lead id has a leads row
(a missing lead hits `continue`, skipping the delay; the last selected
preview never delays). -/
theorem previewLoop_delays (c : CampaignRow) (s : Settings) (env : SendEnv) (cid : Nat) :
    ∀ (ps : List Preview) (st : DBState),
    (previewLoop c s env cid st ps).2.2 =
      ((ps.dropLast).filter fun p => (findLead st p.lead_id).isSome).map
        (fun _ => previewStepDelayMs c) := by
  intro ps
  induction ps with
  | nil => intro st; rfl
  | cons p rest ih =>
      intro st
      cases hfind : findLead st p.lead_id with
      | none =>
          simp only [previewLoop, hfind]
          rw [ih]
          cases rest with
          | nil => rfl
          | cons r rs =>
              simp only [List.dropLast, List.filter_cons, hfind, Option.isSome_none,
                Bool.false_eq_true, if_false]
      | some lead =>
          simp only [previewLoop, hfind]
          rw [ih]
          have hcong : ∀ q ∈ rest.dropLast,
              ((findLead (updLeadStatus LeadStatus.emailed p.lead_id
                (markCLSent cid p.lead_id (addMessage (previewMsg p) st))) q.lead_id).isSome : Bool)
              = (findLead st q.lead_id).isSome := by
            intro q _
            exact findLead_isSome_previewStep LeadStatus.emailed p.lead_id cid (previewMsg p) st q.lead_id
          rw [List.filter_congr hcong]
          cases rest with
          | nil => rfl
          | cons r rs =>
              simp only [List.dropLast, List.filter_cons, hfind, Option.isSome_some, if_true,
                List.map_cons, ne_eq, reduceCtorEq, not_false_eq_true, if_pos, List.cons_append,
                List.nil_append]

/-- The composed row transform that a run of the preview loop applies to
campaign_leads: rows of this campaign whose lead id was among the
processed previews are marked 'sent'. -/
def sentUpd (cid : Nat) (ids : List Nat) (r : CLRow) : CLRow :=
  if r.campaign_id = cid ∧ r.lead_id ∈ ids then markRowSent r else r

/-- One conditional markRowSent followed by sentUpd over the remaining ids
collapses to sentUpd over the combined ids (markRowSent keeps the key
columns and is idempotent). -/
theorem sentUpd_step (cid lid : Nat) (ids : List Nat) (r : CLRow) :
    sentUpd cid ids (if clPred cid lid r then markRowSent r else r)
      = sentUpd cid (lid :: ids) r := by
  by_cases hA : r.campaign_id = cid
  · by_cases hB : r.lead_id = lid
    · have hcl : clPred cid lid r = true := by simp [clPred, hA, hB]
      by_cases hC : r.lead_id ∈ ids <;>
        simp [hcl, sentUpd, markRowSent, hA, hB, hC, List.mem_cons]
    · have hcl : clPred cid lid r = false := by simp [clPred, hB]
      by_cases hC : r.lead_id ∈ ids <;>
        simp [hcl, sentUpd, markRowSent, hA, hB, hC, List.mem_cons]
  · have hcl : clPred cid lid r = false := by simp [clPred, hA]
    simp [hcl, sentUpd, hA]

/-- Full characterisation of one preview-loop run: (i) exactly one
outbound Message is appended, in order, per processed preview, built
verbatim from the preview's subject/body; (ii) campaign_leads rows of
this campaign whose lead id was processed are marked 'sent' (with
sent_at set) and every other row — in particular every row of an
unprocessed preview — is unchanged; (iii) the tally is
`sent = processed count, failed = 0, errors = []`.  "Processed" means the
preview's lead id has a leads row; which previews are processed is
decided by the initial state, since the loop never adds or removes
leads. -/
theorem previewLoop_spec (c : CampaignRow) (s : Settings) (env : SendEnv) (cid : Nat) :
    ∀ (ps : List Preview) (st : DBState),
    (previewLoop c s env cid st ps).1.messages
        = st.messages ++ (ps.filter fun p => (findLead st p.lead_id).isSome).map previewMsg
    ∧ (previewLoop c s env cid st ps).1.campaign_leads
        = st.campaign_leads.map
            (sentUpd cid ((ps.filter fun p => (findLead st p.lead_id).isSome).map (·.lead_id)))
    ∧ (previewLoop c s env cid st ps).2.1
        = ⟨(ps.filter fun p => (findLead st p.lead_id).isSome).length, 0, []⟩ := by
  intro ps
  induction ps with
  | nil =>
      intro st
      refine ⟨by simp [previewLoop], ?_, rfl⟩
      simp only [previewLoop, List.filter_nil, List.map_nil]
      have hid : st.campaign_leads.map (sentUpd cid []) = st.campaign_leads.map id :=
        List.map_congr_left (fun r _ => by simp [sentUpd, id])
      rw [hid, List.map_id]
  | cons p rest ih =>
      intro st
      cases hfind : findLead st p.lead_id with
      | none =>
          simp only [previewLoop, hfind, List.filter_cons, Option.isSome_none,
            Bool.false_eq_true, if_false]
          exact ih st
      | some lead =>
          simp only [previewLoop, hfind, List.filter_cons, Option.isSome_some, if_true]
          obtain ⟨ihm, ihc, ihr⟩ := ih (updLeadStatus LeadStatus.emailed p.lead_id
            (markCLSent cid p.lead_id (addMessage (previewMsg p) st)))
          have hcong : ∀ q ∈ rest,
              ((findLead (updLeadStatus LeadStatus.emailed p.lead_id
                (markCLSent cid p.lead_id (addMessage (previewMsg p) st))) q.lead_id).isSome : Bool)
              = (findLead st q.lead_id).isSome := by
            intro q _
            exact findLead_isSome_previewStep LeadStatus.emailed p.lead_id cid (previewMsg p) st q.lead_id
          rw [List.filter_congr hcong] at ihm ihc ihr
          refine ⟨?_, ?_, ?_⟩
          · rw [ihm]
            simp [updLeadStatus, markCLSent, addMessage, List.append_assoc]
          · rw [ihc]
            have hcls : (updLeadStatus LeadStatus.emailed p.lead_id
                (markCLSent cid p.lead_id (addMessage (previewMsg p) st))).campaign_leads
                = st.campaign_leads.map fun r => if clPred cid p.lead_id r then markRowSent r else r := rfl
            rw [hcls, List.map_map]
            refine List.map_congr_left ?_
            intro r _
            exact sentUpd_step cid p.lead_id _ r
          · rw [ihr]
            simp
/-! ### C4 — preview-send pacing -/

/-- The rollup UPDATE does not touch messages. -/
theorem messages_updateStats (cid : Nat) (st : DBState) :
    (updateCampaignStats cid st).messages = st.messages := rfl

/-- The rollup UPDATE does not touch campaign_leads (list form). -/
theorem cls_updateStats (cid : Nat) (st : DBState) :
    (updateCampaignStats cid st).campaign_leads = st.campaign_leads := rfl

/-- C4, amended: the preview-send delay trace has one `previewStepDelayMs`
entry per non-last selected preview whose lead exists: in drip mode
`(drip_delay_minutes, defaulting to 5 when 0) * 60000` ms with NO
300000 ms cap (unlike the direct-send path), and in bulk mode a fixed
2000 ms. -/
theorem previewSend_delay_trace (st : DBState) (s : Settings) (env : SendEnv) (cid : Nat)
    (previews : List Preview) (c : CampaignRow) (h : findCampaign st cid = some c) :
    delaysOf (sendCampaignPreviews st s env cid previews) =
      some ((((previews.filter (·.selected)).dropLast).filter
          fun p => (findLead st p.lead_id).isSome).map (fun _ => previewStepDelayMs c)) := by
  simp only [sendCampaignPreviews, h, delaysOf]
  rw [previewLoop_delays]
  rfl

/-- Concrete C4/C8/C10 lead builder. -/
def mkLead (i : Nat) (score : Int) : Lead :=
  { id := i, business_name := "Biz" ++ toString i, website := none, industry := none,
    location := none, rating := none, email := some ("x" ++ toString i ++ "@mail.c"), phone := none,
    status := LeadStatus.enriched, lead_score := score, metadata := ⟨[], []⟩ }

/-- The C4 campaign: drip mode with `drip_delay_minutes = 6`. -/
def c4Camp : CampaignRow :=
  { id := 2, subject_template := "", body_template := "",
    send_mode := SendMode.drip, drip_delay_minutes := 6,
    status := CampStatus.active, total_sent := 0 }

/-- The C4 initial database: two leads, both pending in campaign 2. -/
def c4St : DBState :=
  { leads := [mkLead 11 30, mkLead 12 20], campaigns := [c4Camp],
    campaign_leads :=
      [{ campaign_id := 2, lead_id := 11, status := CLStatus.pending, sent_at := false },
       { campaign_id := 2, lead_id := 12, status := CLStatus.pending, sent_at := false }],
    messages := [] }

/-- Two selected previews for campaign 2. -/
def c4Previews : List Preview :=
  [{ lead_id := 11, subject := "s1", body := "b1", selected := true },
   { lead_id := 12, subject := "s2", body := "b2", selected := true }]

/-- A passive environment (no generation involved in preview send). -/
def c4Env : SendEnv :=
  { gen := fun _ => GenResult.err "unused", deliver := fun _ => ProviderOutcome.ok }

/-- C4, counterexample: in a drip campaign with `drip_delay_minutes = 6`,
sendCampaignPreviews waits 360000 ms between the two selected recipients,
while the direct-send per-step delay for the same campaign is capped at
300000 ms — the claim says the preview path applies the same capped
delay. -/
theorem previewSend_drip_delay_cap_counterexample :
    c4Camp.send_mode = SendMode.drip
    ∧ c4Camp.drip_delay_minutes = 6
    ∧ delaysOf (sendCampaignPreviews c4St {} c4Env 2 c4Previews) = some [360000]
    ∧ dripDelayMs c4Camp = 300000
    ∧ (360000 : Nat) ≠ 300000 := by
  refine ⟨rfl, rfl, rfl, rfl, by decide⟩

/-- C4, witness: the amended delay-trace theorem at the C4 scenario. -/
theorem previewSend_delay_trace_witness :
    delaysOf (sendCampaignPreviews c4St {} c4Env 2 c4Previews) =
      some ((((c4Previews.filter (·.selected)).dropLast).filter
          fun p => (findLead c4St p.lead_id).isSome).map (fun _ => previewStepDelayMs c4Camp)) :=
  previewSend_delay_trace c4St {} c4Env 2 c4Previews c4Camp rfl

/-! ### C8 — selected-only, verbatim delivery, untouched rows -/

/-- C8: a preview-send run (i) reports `sent` equal to the number of
selected previews whose lead exists, with zero failures and no error
strings; (ii) appends exactly one outbound Message per such preview,
whose content is `"Subject: " ++ subject ++ "\n\n" ++ body` built
verbatim from the (possibly edited) preview — no re-interpolation or
re-generation; and (iii) rewrites campaign_leads by marking exactly the
rows of this campaign whose lead id belongs to a selected-and-found
preview as 'sent' — every other row, in particular the row of every
unselected preview (for a lead not also selected elsewhere), is left
unchanged, so a 'pending' row stays 'pending'. -/
theorem previewSend_selected_only_verbatim (st : DBState) (s : Settings) (env : SendEnv)
    (cid : Nat) (previews : List Preview) (c : CampaignRow)
    (h : findCampaign st cid = some c) :
    resultOf (sendCampaignPreviews st s env cid previews)
        = some ⟨(selectedFound st previews).length, 0, []⟩
    ∧ (stateOf (sendCampaignPreviews st s env cid previews)).map DBState.messages
        = some (st.messages ++ (selectedFound st previews).map previewMsg)
    ∧ (stateOf (sendCampaignPreviews st s env cid previews)).map DBState.campaign_leads
        = some (st.campaign_leads.map
            (sentUpd cid ((selectedFound st previews).map (·.lead_id)))) := by
  obtain ⟨hm, hc, hr⟩ := previewLoop_spec c s env cid (previews.filter (·.selected))
    (setCampaignStatus CampStatus.active cid st)
  refine ⟨?_, ?_, ?_⟩
  · simp only [sendCampaignPreviews, h, resultOf]
    rw [hr]
    rfl
  · simp only [sendCampaignPreviews, h, stateOf, Option.map_some']
    rw [messages_updateStats, hm]
    rfl
  · simp only [sendCampaignPreviews, h, stateOf, Option.map_some']
    rw [cls_updateStats, hc]
    rfl

/-- The C8 campaign. -/
def c8Camp : CampaignRow :=
  { id := 4, subject_template := "S", body_template := "B",
    send_mode := SendMode.bulk, drip_delay_minutes := 5,
    status := CampStatus.active, total_sent := 0 }

/-- The C8 initial database: four leads, all pending in campaign 4. -/
def c8St : DBState :=
  { leads := [mkLead 1 40, mkLead 2 30, mkLead 3 20, mkLead 4 10], campaigns := [c8Camp],
    campaign_leads :=
      [{ campaign_id := 4, lead_id := 1, status := CLStatus.pending, sent_at := false },
       { campaign_id := 4, lead_id := 2, status := CLStatus.pending, sent_at := false },
       { campaign_id := 4, lead_id := 3, status := CLStatus.pending, sent_at := false },
       { campaign_id := 4, lead_id := 4, status := CLStatus.pending, sent_at := false }],
    messages := [] }

/-- Four previews, the middle two unselected (the claim's example). -/
def c8Previews : List Preview :=
  [{ lead_id := 1, subject := "edited one", body := "body one", selected := true },
   { lead_id := 2, subject := "two", body := "b2", selected := false },
   { lead_id := 3, subject := "three", body := "b3", selected := false },
   { lead_id := 4, subject := "four", body := "body four", selected := true }]

/-- C8, witness: the theorem at the 4-preview / 2-unselected example. -/
theorem previewSend_selected_only_verbatim_witness :
    resultOf (sendCampaignPreviews c8St {} c4Env 4 c8Previews)
        = some ⟨(selectedFound c8St c8Previews).length, 0, []⟩
    ∧ (stateOf (sendCampaignPreviews c8St {} c4Env 4 c8Previews)).map DBState.messages
        = some (c8St.messages ++ (selectedFound c8St c8Previews).map previewMsg)
    ∧ (stateOf (sendCampaignPreviews c8St {} c4Env 4 c8Previews)).map DBState.campaign_leads
        = some (c8St.campaign_leads.map
            (sentUpd 4 ((selectedFound c8St c8Previews).map (·.lead_id)))) :=
  previewSend_selected_only_verbatim c8St {} c4Env 4 c8Previews c8Camp rfl

/-! ### C10 — selected previews with no matching lead are silently skipped -/

/-- C10: a selected preview whose lead id has no leads row is skipped
without any observable effect: the whole handler run on the preview list
with that preview present equals the run without it — no Message, no
status change, no tally movement, no error string (and no pacing delay
for it). -/
theorem previewSend_missing_lead_skipped (st : DBState) (s : Settings) (env : SendEnv)
    (cid : Nat) (previews : List Preview) (p : Preview)
    (hsel : p.selected = true) (hmiss : findLead st p.lead_id = none) :
    sendCampaignPreviews st s env cid (p :: previews)
      = sendCampaignPreviews st s env cid previews := by
  simp only [sendCampaignPreviews]
  cases hc : findCampaign st cid with
  | none => rfl
  | some c =>
      have hstep : previewLoop c s env cid (setCampaignStatus CampStatus.active cid st)
            (p :: previews.filter (·.selected))
          = previewLoop c s env cid (setCampaignStatus CampStatus.active cid st)
            (previews.filter (·.selected)) := by
        simp only [previewLoop, findLead_setCampaignStatus, hmiss]
      simp only [List.filter_cons, hsel, if_pos, hstep]

/-- The C10 initial database: one real lead (id 1) pending in campaign 6;
no lead with id 99 exists. -/
def c10St : DBState :=
  { leads := [mkLead 1 40],
    campaigns := [{ id := 6, subject_template := "S", body_template := "B",
                    send_mode := SendMode.bulk, drip_delay_minutes := 5,
                    status := CampStatus.active, total_sent := 0 }],
    campaign_leads := [{ campaign_id := 6, lead_id := 1, status := CLStatus.pending, sent_at := false }],
    messages := [] }

/-- A selected preview pointing at the missing lead id 99. -/
def c10Ghost : Preview := { lead_id := 99, subject := "gs", body := "gb", selected := true }

/-- A selected preview for the real lead. -/
def c10Real : Preview := { lead_id := 1, subject := "rs", body := "rb", selected := true }

/-- C10, witness: inserting the ghost preview in front of the real one
changes nothing about the run. -/
theorem previewSend_missing_lead_skipped_witness :
    sendCampaignPreviews c10St {} c4Env 6 [c10Ghost, c10Real]
      = sendCampaignPreviews c10St {} c4Env 6 [c10Real] :=
  previewSend_missing_lead_skipped c10St {} c4Env 6 [c10Real] c10Ghost rfl rfl

/-! ### C9 — idempotent lead assignment -/

/-- C9: `addLeadsToCampaign` is idempotent.  Starting from any state whose
campaign_leads table respects the unique-pair constraint (at most one row
for the pair), adding the same lead id twice yields `added = 0` on the
second call, the second call is a no-op on the state (not an error), and
the table ends with exactly one row for the pair. -/
theorem addLeadsToCampaign_idempotent (st : DBState) (cid lid : Nat)
    (h : countPair st cid lid ≤ 1) :
    (addLeadsToCampaign (addLeadsToCampaign st cid [lid]).1 cid [lid]).2 = 0
    ∧ (addLeadsToCampaign (addLeadsToCampaign st cid [lid]).1 cid [lid]).1
        = (addLeadsToCampaign st cid [lid]).1
    ∧ countPair (addLeadsToCampaign (addLeadsToCampaign st cid [lid]).1 cid [lid]).1 cid lid = 1 := by
  have hrow : clPred cid lid (pendingRow cid lid) = true := by simp [clPred, pendingRow]
  cases hin : st.campaign_leads.any (clPred cid lid) with
  | true =>
      have hpos : 0 < countPair st cid lid := by
        rw [List.any_eq_true] at hin
        obtain ⟨r, hr, hpr⟩ := hin
        exact List.countP_pos_iff.mpr ⟨r, hr, hpr⟩
      have hone : countPair st cid lid = 1 := by omega
      have h2 : addLeadsToCampaign st cid [lid] = (st, 0) := by
        simp only [addLeadsToCampaign, insertOrIgnoreCL, hin, if_true]
        rfl
      have h2f : (addLeadsToCampaign st cid [lid]).1 = st := by rw [h2]
      refine ⟨?_, ?_, ?_⟩
      · rw [h2f, h2]
      · rw [h2f, h2]
      · rw [h2f, h2]
        exact hone
  | false =>
      have hzero : countPair st cid lid = 0 := by
        simp only [countPair]
        rw [List.countP_eq_zero]
        intro r hr hpr
        exact absurd (List.any_eq_true.mpr ⟨r, hr, hpr⟩) (by simp [hin])
      have hin2 : (insertedState st cid lid).campaign_leads.any (clPred cid lid) = true := by
        rw [List.any_eq_true]
        exact ⟨pendingRow cid lid,
          List.mem_append_right _ (List.mem_singleton.mpr rfl), hrow⟩
      have h2 : addLeadsToCampaign st cid [lid] = (insertedState st cid lid, 1) := by
        simp only [addLeadsToCampaign, insertOrIgnoreCL, hin, Bool.false_eq_true, if_false,
          if_true]
      have h2f : (addLeadsToCampaign st cid [lid]).1 = insertedState st cid lid := by rw [h2]
      have h4 : addLeadsToCampaign (insertedState st cid lid) cid [lid]
          = (insertedState st cid lid, 0) := by
        simp only [addLeadsToCampaign, insertOrIgnoreCL, hin2, if_true]
        rfl
      refine ⟨?_, ?_, ?_⟩
      · rw [h2f, h4]
      · rw [h2f, h4]
      · rw [h2f, h4]
        show (insertedState st cid lid).campaign_leads.countP (clPred cid lid) = 1
        show (st.campaign_leads ++ [pendingRow cid lid]).countP (clPred cid lid) = 1
        rw [List.countP_append]
        have hone : ([pendingRow cid lid].countP (clPred cid lid)) = 1 := by
          simp [List.countP_cons, hrow]
        rw [hone]
        have : st.campaign_leads.countP (clPred cid lid) = 0 := hzero
        omega

/-- The empty database used for the C9 witness. -/
def c9St : DBState := { leads := [], campaigns := [], campaign_leads := [], messages := [] }

/-- C9, witness: the idempotence theorem at the empty table, campaign 1,
lead 1. -/
theorem addLeadsToCampaign_idempotent_witness :
    (addLeadsToCampaign (addLeadsToCampaign c9St 1 [1]).1 1 [1]).2 = 0
    ∧ (addLeadsToCampaign (addLeadsToCampaign c9St 1 [1]).1 1 [1]).1
        = (addLeadsToCampaign c9St 1 [1]).1
    ∧ countPair (addLeadsToCampaign (addLeadsToCampaign c9St 1 [1]).1 1 [1]).1 1 1 = 1 :=
  addLeadsToCampaign_idempotent c9St 1 1 (by decide)

end AutoBound
